import Mathlib

/-!
Verification of the chat relay server (`src/server.js`).

The development shallowly embeds the parts of the server the claims are
about: the streaming relay's per-chunk data handler, the message composers
of the three chat endpoints, their validation, the catch-block status
mappers, and the model-switch endpoint.  Machine-level concerns (sockets,
express plumbing) are abstracted away; every embedded function mirrors the
corresponding JavaScript line by line.
-/

/-- Left brace character, written via its code point. -/
def lbrace : Char := Char.ofNat 123

/-- Right brace character, written via its code point. -/
def rbrace : Char := Char.ofNat 125

/-- JSON values, as produced by JavaScript `JSON.parse`. -/
inductive JsValue where
  | null
  | bool (b : Bool)
  | num (n : Int)
  | str (s : String)
  | arr (elems : List JsValue)
  | obj (fields : List (String × JsValue))

/-- Skip JSON whitespace. -/
def skipWs : List Char → List Char
  | [] => []
  | c :: cs => if c = ' ' ∨ c = '\t' ∨ c = '\n' ∨ c = '\r' then skipWs cs else c :: cs

/-- Decode a JSON string escape character. `\u` escapes are not modelled. -/
def escChar (e : Char) : Option Char :=
  if e = '"' ∨ e = '\\' ∨ e = '/' then some e
  else if e = 'n' then some '\n'
  else if e = 't' then some '\t'
  else if e = 'r' then some '\r'
  else if e = 'b' then some (Char.ofNat 8)
  else if e = 'f' then some (Char.ofNat 12)
  else none

/-- Parse the remainder of a JSON string literal (the opening quote has been
consumed), returning the decoded characters and the rest of the input. -/
def parseStringRest : List Char → Option (List Char × List Char)
  | [] => none
  | '"' :: cs => some ([], cs)
  | '\\' :: e :: cs =>
    match escChar e with
    | some c => (parseStringRest cs).map (fun p => (c :: p.1, p.2))
    | none => none
  | c :: cs => (parseStringRest cs).map (fun p => (c :: p.1, p.2))

/-- Take a maximal run of decimal digits. -/
def takeDigits : List Char → (List Char × List Char)
  | [] => ([], [])
  | c :: cs =>
    if c.isDigit then
      let p := takeDigits cs
      (c :: p.1, p.2)
    else ([], c :: cs)

/-- Decimal digits to a natural number. -/
def digitsToNat (ds : List Char) : Nat :=
  ds.foldl (fun acc c => acc * 10 + (c.toNat - 48)) 0

/-- Parse a JSON number.  The grammar is simplified to (signed) integers,
which covers every numeric field of the upstream frame format. -/
def parseNumber : List Char → Option (JsValue × List Char)
  | '-' :: cs =>
    match takeDigits cs with
    | ([], _) => none
    | (ds, rest) => some (JsValue.num (-(digitsToNat ds : Int)), rest)
  | cs =>
    match takeDigits cs with
    | ([], _) => none
    | (ds, rest) => some (JsValue.num (digitsToNat ds), rest)

/-- Match a literal character sequence, returning the remaining input. -/
def matchLit : List Char → List Char → Option (List Char)
  | [], rest => some rest
  | p :: ps, c :: cs => if c = p then matchLit ps cs else none
  | _ :: _, [] => none

mutual

/-- Fuel-based recursive-descent parser for a JSON value.  Models
JavaScript `JSON.parse` over the value grammar used by the upstream
streaming frames (null, booleans, integers, strings with basic escapes,
arrays, objects). -/
def parseValue : Nat → List Char → Option (JsValue × List Char)
  | 0, _ => none
  | fuel + 1, s =>
    match skipWs s with
    | [] => none
    | c :: cs =>
      if c = '"' then
        (parseStringRest cs).map (fun p => (JsValue.str (String.mk p.1), p.2))
      else if c = lbrace then
        match skipWs cs with
        | [] => none
        | c2 :: cs2 =>
          if c2 = rbrace then some (JsValue.obj [], cs2)
          else (parseMembers fuel (c2 :: cs2)).map (fun p => (JsValue.obj p.1, p.2))
      else if c = '[' then
        match skipWs cs with
        | [] => none
        | c2 :: cs2 =>
          if c2 = ']' then some (JsValue.arr [], cs2)
          else (parseElems fuel (c2 :: cs2)).map (fun p => (JsValue.arr p.1, p.2))
      else if c = 'n' then
        (matchLit ['u', 'l', 'l'] cs).map (fun r => (JsValue.null, r))
      else if c = 't' then
        (matchLit ['r', 'u', 'e'] cs).map (fun r => (JsValue.bool true, r))
      else if c = 'f' then
        (matchLit ['a', 'l', 's', 'e'] cs).map (fun r => (JsValue.bool false, r))
      else
        parseNumber (c :: cs)

/-- Parse one or more `"key": value` members followed by a closing brace. -/
def parseMembers : Nat → List Char → Option (List (String × JsValue) × List Char)
  | 0, _ => none
  | fuel + 1, s =>
    match skipWs s with
    | [] => none
    | c :: cs =>
      if c = '"' then
        match parseStringRest cs with
        | none => none
        | some (key, rest1) =>
          match skipWs rest1 with
          | ':' :: rest2 =>
            match parseValue fuel rest2 with
            | none => none
            | some (v, rest3) =>
              match skipWs rest3 with
              | [] => none
              | c2 :: rest4 =>
                if c2 = ',' then
                  (parseMembers fuel rest4).map
                    (fun p => ((String.mk key, v) :: p.1, p.2))
                else if c2 = rbrace then
                  some ([(String.mk key, v)], rest4)
                else none
          | _ => none
      else none

/-- Parse one or more array elements followed by a closing bracket. -/
def parseElems : Nat → List Char → Option (List JsValue × List Char)
  | 0, _ => none
  | fuel + 1, s =>
    match parseValue fuel s with
    | none => none
    | some (v, rest) =>
      match skipWs rest with
      | [] => none
      | c :: rest2 =>
        if c = ',' then (parseElems fuel rest2).map (fun p => (v :: p.1, p.2))
        else if c = ']' then some ([v], rest2)
        else none

end

/-- Model of `JSON.parse`: parse a complete JSON value, requiring the whole
input (up to trailing whitespace) to be consumed; `none` models a thrown
`SyntaxError`. -/
def jsonParse (s : String) : Option JsValue :=
  match parseValue (s.length + 1) s.data with
  | some (v, rest) => if skipWs rest = [] then some v else none
  | none => none

/-- JavaScript property access `v[k]` on a parsed JSON value: defined only
on objects (with `JSON.parse`'s last-duplicate-wins semantics); `none`
models `undefined`. -/
def jsGet : JsValue → String → Option JsValue
  | JsValue.obj fields, k => (fields.reverse.find? (fun p => p.1 == k)).map (fun p => p.2)
  | _, _ => none

/-- JavaScript truthiness of a parsed JSON value. -/
def jsTruthy : JsValue → Bool
  | JsValue.null => false
  | JsValue.bool b => b
  | JsValue.num n => n != 0
  | JsValue.str s => s != ""
  | JsValue.arr _ => true
  | JsValue.obj _ => true

/-- Outcome of the body of the stream data handler's `for` loop on one
line: an exception was thrown (`JSON.parse` failure, or `res.write` on a
non-string), nothing was written, or a delta string was written. -/
inductive LineStep where
  | thrown
  | skip
  | write (s : String)
deriving DecidableEq, Repr

/-- One iteration of the `for (const line of lines)` loop in the
`/api/chat/stream` data handler (`server.js` 206–211):
`const data = JSON.parse(line); if (data.message && data.message.content)
res.write(data.message.content);`. -/
def lineAction (line : String) : LineStep :=
  match jsonParse line with
  | none => LineStep.thrown
  | some data =>
    match jsGet data "message" with
    | none => LineStep.skip
    | some m =>
      if jsTruthy m then
        match jsGet m "content" with
        | none => LineStep.skip
        | some c =>
          if jsTruthy c then
            match c with
            | JsValue.str s => LineStep.write s
            | _ => LineStep.thrown
          else LineStep.skip
      else LineStep.skip

/-- JavaScript `s.split('\n')` on the character list: split at every
newline character, keeping empty segments. -/
def splitNlChars : List Char → List (List Char)
  | [] => [[]]
  | c :: cs =>
    if c = '\n' then [] :: splitNlChars cs
    else
      match splitNlChars cs with
      | [] => [[c]]
      | h :: t => (c :: h) :: t

/-- JavaScript `s.split('\n')`. -/
def jsSplitNl (s : String) : List String :=
  (splitNlChars s.data).map String.mk

/-- Truthiness of `line.trim()`: the trimmed string is nonempty exactly
when the line contains a non-whitespace character. -/
def trimTruthy (line : String) : Bool :=
  line.data.any (fun c => !c.isWhitespace)

/-- `chunk.toString().split('\n').filter(line => line.trim())`
(`server.js` 204): the trimmed-nonempty segments of one chunk. -/
def splitLines (chunk : String) : List String :=
  (jsSplitNl chunk).filter trimTruthy

/-- The deltas written by the `for` loop over one chunk's lines.  The
`try`/`catch` wraps the whole loop (`server.js` 203–214), so a thrown
exception abandons the remaining lines of the chunk. -/
def processLines : List String → List String
  | [] => []
  | l :: rest =>
    match lineAction l with
    | LineStep.thrown => []
    | LineStep.skip => processLines rest
    | LineStep.write s => s :: processLines rest

/-- The deltas written to the client while handling one `data` chunk. -/
def processChunk (chunk : String) : List String :=
  processLines (splitLines chunk)

/-- Concatenation of a list of strings. -/
def strConcat : List String → String
  | [] => ""
  | s :: rest => s ++ strConcat rest

/-- Total bytes written to the client over a sequence of upstream `data`
chunks, in arrival order. -/
def relayOutput : List String → String
  | [] => ""
  | c :: rest => strConcat (processChunk c) ++ relayOutput rest

/-- The complete lines of a chunk sequence, each chunk split on its own. -/
def allLines : List String → List String
  | [] => []
  | c :: rest => splitLines c ++ allLines rest

/-- Events emitted by the upstream response stream. -/
inductive UpEvent where
  | data (chunk : String)
  | err
  | fin

/-- What the client observes from one relay session: the bytes written and
whether the response was closed. -/
structure ClientView where
  bytes : String
  closed : Bool
deriving DecidableEq, Repr

/-- The relay session over the upstream event sequence: `data` chunks are
processed by the data handler; `end` and `error` both call `res.end()`
(`server.js` 217–224), closing the response without writing anything
further. -/
def runSession : List UpEvent → ClientView
  | [] => { bytes := "", closed := false }
  | UpEvent.data c :: rest =>
    let v := runSession rest
    { bytes := strConcat (processChunk c) ++ v.bytes, closed := v.closed }
  | UpEvent.err :: _ => { bytes := "", closed := true }
  | UpEvent.fin :: _ => { bytes := "", closed := true }

/-- The fixed system prompt (`server.js` 19–33), verbatim. -/
def SYSTEM_PROMPT : String :=
  "You are Gemma3:1b, a helpful AI assistant. When responding, use markdown formatting to make your answers more readable.\n\nFor text responses:\n- Use **bold** for emphasis\n- Use *italic* for subtle emphasis\n- Use headings (#, ##, ###) to structure longer responses\n- Use bullet points (- or *) for lists\n- Use numbered lists for steps\n- Use `code` for inline code and triple backticks with language specification for code blocks\n- Use tables for comparative data\n- Use > for blockquotes\n\nIf the user provides images, you can reference them in your response. Describe what you see or answer questions about the images.\n\nAlways format your responses properly for better readability."

/-- Process-wide read-only configuration (`MODEL_NAME`, `OLLAMA_BASE_URL`). -/
structure ServerConfig where
  modelName : String
  ollamaBaseUrl : String
deriving DecidableEq, Repr

/-- The configuration with the source's default values. -/
def defaultConfig : ServerConfig :=
  { modelName := "gemma3:1b", ollamaBaseUrl := "http://localhost:11434" }

/-- One conversation turn `{role, content}`. -/
structure Turn where
  role : String
  content : String
deriving DecidableEq, Repr

/-- One attached image `{name, type, data}` (base64 payload in `data`). -/
structure ImageDescriptor where
  name : String
  type : String
  data : String
deriving DecidableEq, Repr

/-- A chat request body `{message?, images?, conversation_history?}`;
`none` models an absent (`undefined`) field. -/
structure ChatBody where
  message : Option String
  images : Option (List ImageDescriptor)
  conversation_history : Option (List Turn)
deriving DecidableEq, Repr

/-- The multimodal request body, which adds an optional `model` override. -/
structure MmBody where
  message : Option String
  images : Option (List ImageDescriptor)
  conversation_history : Option (List Turn)
  model : Option String
deriving DecidableEq, Repr

/-- JSON error reply: HTTP status and the `error` field of the body (the
optional `details` field is not modelled). -/
structure ErrorResponse where
  status : Nat
  error : String
deriving DecidableEq, Repr

/-- JavaScript truthiness of an optional string field: `undefined` and the
empty string are falsy. -/
def strTruthy : Option String → Bool
  | none => false
  | some s => s != ""

/-- JavaScript `v || dflt` for an optional string `v`. -/
def jsOrStr (v : Option String) (dflt : String) : String :=
  match v with
  | some s => if s = "" then dflt else s
  | none => dflt

/-- The shared request validation `if (!message && images.length === 0)`
(`server.js` 71, 159, 237). `true` means the request is rejected. -/
def rejectRequest (message : Option String) (images : List ImageDescriptor) : Bool :=
  !strTruthy message && images.length == 0

/-- `Image {i}: {name} ({type})` — one per-image annotation line
(`server.js` 95), without its leading newline. -/
def imageLine (i : Nat) (img : ImageDescriptor) : String :=
  "Image " ++ toString i ++ ": " ++ img.name ++ " (" ++ img.type ++ ")"

/-- The `/api/chat` user-turn text before the per-image lines
(`server.js` 85–91): the message, plus the attachment-count annotation
when images are present. -/
def chatImagesBase (message : Option String) (n : Nat) : String :=
  let userMessage := jsOrStr message ""
  if userMessage ≠ "" then
    userMessage ++ "\n\n[User attached " ++ toString n ++ " image(s). Please respond accordingly.]"
  else
    "[User attached " ++ toString n ++ " image(s). Please describe or analyze these images.]"

/-- `images.forEach((img, index) => userMessage += ...)` (`server.js`
94–96): append one `\nImage {i}: ...` line per image. -/
def appendImageLines (base : String) (images : List ImageDescriptor) : String :=
  images.enum.foldl (fun acc p => acc ++ ("\n" ++ imageLine (p.1 + 1) p.2)) base

/-- The `/api/chat` user-turn content (`server.js` 85–97). -/
def chatUserMessage (message : Option String) (images : List ImageDescriptor) : String :=
  if images.length > 0 then
    appendImageLines (chatImagesBase message images.length) images
  else jsOrStr message ""

/-- The `/api/chat/stream` user-turn content (`server.js` 173–180): only
the attachment-count annotation, no per-image lines. -/
def streamUserMessage (message : Option String) (images : List ImageDescriptor) : String :=
  let userMessage := jsOrStr message ""
  if images.length > 0 then
    if userMessage ≠ "" then
      userMessage ++ "\n\n[User attached " ++ toString images.length ++ " image(s)]"
    else
      "[User attached " ++ toString images.length ++ " image(s)]"
  else userMessage

/-- The body POSTed to the upstream `/api/chat` (`server.js` 101–109,
184–192); the constant `options` object is not modelled. -/
structure OllamaRequest where
  model : String
  messages : List Turn
  stream : Bool
deriving DecidableEq, Repr

/-- The `/api/chat` handler up to the upstream call (`server.js` 69–109):
validation, message composition, and the upstream request body.
`Except.error` means the handler replied without calling upstream. -/
def chatHandler (cfg : ServerConfig) (b : ChatBody) : Except ErrorResponse OllamaRequest :=
  let images := b.images.getD []
  let hist := b.conversation_history.getD []
  if rejectRequest b.message images then
    Except.error { status := 400, error := "Message or images are required" }
  else
    let messages := Turn.mk "system" SYSTEM_PROMPT ::
      hist.map (fun msg => Turn.mk msg.role msg.content)
    Except.ok
      { model := cfg.modelName
        messages := messages ++ [Turn.mk "user" (chatUserMessage b.message images)]
        stream := false }

/-- The `/api/chat/stream` handler up to the upstream call
(`server.js` 157–192). -/
def streamSetup (cfg : ServerConfig) (b : ChatBody) : Except ErrorResponse OllamaRequest :=
  let images := b.images.getD []
  let hist := b.conversation_history.getD []
  if rejectRequest b.message images then
    Except.error { status := 400, error := "Message or images are required" }
  else
    let messages := Turn.mk "system" SYSTEM_PROMPT ::
      hist.map (fun msg => Turn.mk msg.role msg.content)
    Except.ok
      { model := cfg.modelName
        messages := messages ++ [Turn.mk "user" (streamUserMessage b.message images)]
        stream := true }

/-- One element of the multimodal user turn's `content` array
(`server.js` 256–272). -/
inductive ContentPart where
  | text (text : String)
  | image (source : String)
deriving DecidableEq, Repr

/-- A message of the multimodal upstream request: either a plain
`{role, content}` turn or the structured user turn. -/
inductive MmMessage where
  | plain (role : String) (content : String)
  | multi (role : String) (content : List ContentPart)
deriving DecidableEq, Repr

/-- The multimodal user turn's content (`server.js` 250–273): the text
part when `message` is truthy, then one `image` part per attached image
whose `source` is `data:{type};base64,[image_data_here]` — a fixed
placeholder; the image's `data` payload is never used. -/
def multimodalContent (message : Option String) (images : List ImageDescriptor) : List ContentPart :=
  (if strTruthy message then [ContentPart.text (jsOrStr message "")] else []) ++
    (if images.length > 0 then
      images.map (fun img =>
        ContentPart.image ("data:" ++ img.type ++ ";base64,[image_data_here]"))
    else [])

/-- The body POSTed upstream by `/api/chat/multimodal` (`server.js`
277–285); the constant `options` object is not modelled. -/
structure MmRequest where
  model : String
  messages : List MmMessage
  stream : Bool
deriving DecidableEq, Repr

/-- The `/api/chat/multimodal` handler up to the upstream call
(`server.js` 235–285). -/
def multimodalHandler (cfg : ServerConfig) (b : MmBody) : Except ErrorResponse MmRequest :=
  let images := b.images.getD []
  let hist := b.conversation_history.getD []
  if rejectRequest b.message images then
    Except.error { status := 400, error := "Message or images are required" }
  else
    let modelToUse := jsOrStr b.model cfg.modelName
    let messages := MmMessage.plain "system" SYSTEM_PROMPT ::
      hist.map (fun msg => MmMessage.plain msg.role msg.content)
    Except.ok
      { model := modelToUse
        messages := messages ++ [MmMessage.multi "user" (multimodalContent b.message images)]
        stream := false }

/-- The failure seen by a handler's `catch` block when the upstream call
fails: connection refused (`error.code === 'ECONNREFUSED'`), an upstream
non-2xx response (`error.response`), or anything else. -/
inductive UpstreamFailure where
  | connRefused
  | httpError (status : Nat) (body : String)
  | other (msg : String)

/-- The `/api/chat` catch block (`server.js` 130–151). -/
def chatCatch : UpstreamFailure → ErrorResponse
  | UpstreamFailure.connRefused => { status := 503, error := "Ollama is not running. Please start Ollama first." }
  | UpstreamFailure.httpError s _ => { status := s, error := "Ollama API error" }
  | UpstreamFailure.other _ => { status := 500, error := "Internal server error" }

/-- The `/api/chat/stream` catch block (`server.js` 226–229): every setup
failure, connection refusal included, is answered with the same 500. -/
def streamCatch : UpstreamFailure → ErrorResponse
  | _ => { status := 500, error := "Stream setup failed" }

/-- The `/api/chat/multimodal` catch block (`server.js` 307–328). -/
def multimodalCatch : UpstreamFailure → ErrorResponse
  | UpstreamFailure.connRefused => { status := 503, error := "Ollama is not running" }
  | UpstreamFailure.httpError s _ =>
    if s = 404 then { status := 404, error := "Model not found or not multimodal" }
    else { status := 500, error := "Multimodal chat failed" }
  | UpstreamFailure.other _ => { status := 500, error := "Multimodal chat failed" }

/-- Whether a character sequence starts with the given sequence. -/
def listHasPfx : List Char → List Char → Bool
  | [], _ => true
  | _ :: _, [] => false
  | p :: ps, c :: cs => p = c && listHasPfx ps cs

/-- Substring search over character lists. -/
def strIncludesAux (sub : List Char) : List Char → Bool
  | [] => listHasPfx sub []
  | c :: cs => listHasPfx sub (c :: cs) || strIncludesAux sub cs

/-- JavaScript `s.includes(sub)`. -/
def strIncludes (s sub : String) : Bool :=
  strIncludesAux sub.data s.data

/-- `model.includes('llava') || model.includes('bakllava') ||
model.includes('vision')` (`server.js` 382). -/
def modelSupportsImages (model : String) : Bool :=
  strIncludes model "llava" || strIncludes model "bakllava" || strIncludes model "vision"

/-- The `/api/switch-model` reply (`server.js` 359–392). -/
inductive SwitchResult where
  | badRequest (error : String)
  | notFound (error : String)
  | ok (success : Bool) (message : String) (new_model : String) (supports_images : Bool)
deriving DecidableEq, Repr

/-- The `/api/switch-model` handler (`server.js` 359–392), given the model
names `models` returned by the upstream `/api/tags` call.  The handler
reads no server state and writes none, so it returns the configuration
unchanged alongside its reply. -/
def switchModel (cfg : ServerConfig) (models : List String) (body : Option String) :
    SwitchResult × ServerConfig :=
  match body with
  | none => (SwitchResult.badRequest "Model name is required", cfg)
  | some model =>
    if model = "" then (SwitchResult.badRequest "Model name is required", cfg)
    else if models.any (fun m => m == model) then
      (SwitchResult.ok true ("Model switched to " ++ model) model (modelSupportsImages model), cfg)
    else
      (SwitchResult.notFound ("Model \x27" ++ model ++ "\x27 not found"), cfg)

/-- The `GET /api/health` reply (`server.js` 36–43). -/
structure HealthResponse where
  status : String
  model : String
  ollama_url : String
  features : List String
deriving DecidableEq, Repr

/-- The `GET /api/health` handler (`server.js` 36–43). -/
def health (cfg : ServerConfig) : HealthResponse :=
  { status := "OK"
    model := cfg.modelName
    ollama_url := cfg.ollamaBaseUrl
    features := ["chat", "images", "formatting"] }

theorem strConcat_append (a b : List String) :
    strConcat (a ++ b) = strConcat a ++ strConcat b := by
  induction a with
  | nil => simp [strConcat]
  | cons x xs ih => simp [strConcat, ih, String.append_assoc]

theorem foldl_append_str {α : Type} (f : α → String) :
    ∀ (l : List α) (b : String),
      l.foldl (fun acc x => acc ++ f x) b = b ++ strConcat (l.map f)
  | [], b => by simp [strConcat]
  | x :: xs, b => by
    simp [List.foldl_cons, strConcat, foldl_append_str f xs, String.append_assoc]

theorem processLines_all_write (g : String → String) :
    ∀ ls : List String, (∀ l ∈ ls, lineAction l = LineStep.write (g l)) →
      processLines ls = ls.map g
  | [], _ => rfl
  | l :: rest, h => by
    have hl := h l (by simp)
    simp [processLines, hl,
      processLines_all_write g rest (fun x hx => h x (by simp [hx]))]

theorem processLines_write_then_thrown (g : String → String) (bad : String)
    (rest : List String) (hbad : lineAction bad = LineStep.thrown) :
    ∀ pre : List String, (∀ l ∈ pre, lineAction l = LineStep.write (g l)) →
      processLines (pre ++ bad :: rest) = pre.map g
  | [], _ => by simp [processLines, hbad]
  | l :: ls, h => by
    have hl := h l (by simp)
    simp [processLines, hl,
      processLines_write_then_thrown g bad rest hbad ls (fun x hx => h x (by simp [hx]))]

theorem relayOutput_all_write (g : String → String) :
    ∀ chunks : List String,
      (∀ c ∈ chunks, ∀ l ∈ splitLines c, lineAction l = LineStep.write (g l)) →
      relayOutput chunks = strConcat ((allLines chunks).map g)
  | [], _ => rfl
  | c :: rest, h => by
    have hc : processChunk c = (splitLines c).map g :=
      processLines_all_write g (splitLines c) (h c (by simp))
    simp [relayOutput, allLines, hc, List.map_append, strConcat_append,
      relayOutput_all_write g rest (fun d hd => h d (by simp [hd]))]

/-- Claim C1 (amended): when every trimmed-nonempty segment the relay
splits the chunks into is a complete parseable JSON line carrying a text
delta — in particular whenever every chunk boundary falls at a newline
boundary — the bytes written to the client are the concatenation of those
deltas in arrival order.  (The unrestricted claim, for arbitrary chunk
boundaries, is refuted by `stream_split_line_loses_delta`: the handler
keeps no carry-over buffer.) -/
theorem stream_line_aligned_delivers_all_deltas (chunks : List String)
    (g : String → String)
    (h : ∀ c ∈ chunks, ∀ l ∈ splitLines c, lineAction l = LineStep.write (g l)) :
    relayOutput chunks = strConcat ((allLines chunks).map g) :=
  relayOutput_all_write g chunks h

/-- Witness for C1's theorem: two chunks holding three complete delta
lines are relayed as the concatenation of the three deltas. -/
theorem stream_line_aligned_delivers_all_deltas_witness :
    relayOutput
      ["\x7b\"message\":\x7b\"content\":\"A\"\x7d\x7d\n\x7b\"message\":\x7b\"content\":\"B\"\x7d\x7d\n",
       "\x7b\"message\":\x7b\"content\":\"C\"\x7d\x7d\n"] =
      strConcat
        ((allLines
          ["\x7b\"message\":\x7b\"content\":\"A\"\x7d\x7d\n\x7b\"message\":\x7b\"content\":\"B\"\x7d\x7d\n",
           "\x7b\"message\":\x7b\"content\":\"C\"\x7d\x7d\n"]).map
          (fun l =>
            if l = "\x7b\"message\":\x7b\"content\":\"A\"\x7d\x7d" then "A"
            else if l = "\x7b\"message\":\x7b\"content\":\"B\"\x7d\x7d" then "B"
            else "C")) :=
  stream_line_aligned_delivers_all_deltas _ _ (by decide)

/-- Counterexample to C1 as stated: the concatenation of the two chunks is
exactly one complete newline-terminated parseable JSON line with delta
`hi` (K = 1), the boundary splitting the line in two; the claim says the
client receives `hi`, but the relay — having no carry-over buffer — writes
nothing at all. -/
theorem stream_split_line_loses_delta :
    lineAction "\x7b\"message\":\x7b\"content\":\"hi\"\x7d\x7d" = LineStep.write "hi" ∧
    ("\x7b\"message\":\x7b\"con" ++ "tent\":\"hi\"\x7d\x7d\n" : String) =
      "\x7b\"message\":\x7b\"content\":\"hi\"\x7d\x7d\n" ∧
    relayOutput ["\x7b\"message\":\x7b\"con", "tent\":\"hi\"\x7d\x7d\n"] = "" := by
  decide

/-- Claim C2 (amended): a malformed line never terminates the session, and
every valid delta in later chunks is still delivered; but within the chunk
containing the malformed line, processing stops at that line, so the
deltas of the lines after it in the same chunk are dropped (the claim's
unrestricted form is refuted by `stream_malformed_drops_same_chunk_delta`). -/
theorem stream_malformed_line_isolated_to_chunk (c : String)
    (pre rest post : List String) (bad : String) (g : String → String)
    (hsplit : splitLines c = pre ++ bad :: rest)
    (hpre : ∀ l ∈ pre, lineAction l = LineStep.write (g l))
    (hbad : lineAction bad = LineStep.thrown)
    (hpost : ∀ d ∈ post, ∀ l ∈ splitLines d, lineAction l = LineStep.write (g l)) :
    relayOutput (c :: post) =
      strConcat (pre.map g) ++ strConcat ((allLines post).map g) := by
  have hc : processChunk c = pre.map g := by
    unfold processChunk
    rw [hsplit]
    exact processLines_write_then_thrown g bad rest hbad pre hpre
  simp [relayOutput, hc, relayOutput_all_write g post hpost]

/-- Witness for C2's theorem: a chunk whose first line carries delta `A`
and whose second line is malformed, followed by a chunk with delta `B`:
the client receives `A` then `B`. -/
theorem stream_malformed_line_isolated_to_chunk_witness :
    relayOutput
      ["\x7b\"message\":\x7b\"content\":\"A\"\x7d\x7d\n!!!\n",
       "\x7b\"message\":\x7b\"content\":\"B\"\x7d\x7d\n"] =
      strConcat
        (["\x7b\"message\":\x7b\"content\":\"A\"\x7d\x7d"].map
          (fun l => if l = "\x7b\"message\":\x7b\"content\":\"A\"\x7d\x7d" then "A" else "B")) ++
      strConcat
        ((allLines ["\x7b\"message\":\x7b\"content\":\"B\"\x7d\x7d\n"]).map
          (fun l => if l = "\x7b\"message\":\x7b\"content\":\"A\"\x7d\x7d" then "A" else "B")) :=
  stream_malformed_line_isolated_to_chunk
    "\x7b\"message\":\x7b\"content\":\"A\"\x7d\x7d\n!!!\n"
    ["\x7b\"message\":\x7b\"content\":\"A\"\x7d\x7d"] [] ["\x7b\"message\":\x7b\"content\":\"B\"\x7d\x7d\n"]
    "!!!" _ (by decide) (by decide) (by decide) (by decide)

/-- Counterexample to C2 as stated: a malformed line followed in the same
chunk by a valid delta line — the claim says delta `hi` is still
delivered, but the thrown parse error abandons the rest of the chunk and
the client receives nothing. -/
theorem stream_malformed_drops_same_chunk_delta :
    lineAction "garbage" = LineStep.thrown ∧
    lineAction "\x7b\"message\":\x7b\"content\":\"hi\"\x7d\x7d" = LineStep.write "hi" ∧
    relayOutput ["garbage\n\x7b\"message\":\x7b\"content\":\"hi\"\x7d\x7d\n"] = "" := by
  decide

/-- Claim C7: if the upstream source signals a transport error after
streaming has begun, the client response is closed immediately and no
error payload is written: the client sees exactly the deltas relayed from
the chunks that arrived before the failure, then a clean close. -/
theorem stream_error_closes_without_payload (pre : List String)
    (trailing : List UpEvent) :
    runSession (pre.map UpEvent.data ++ UpEvent.err :: trailing) =
      { bytes := relayOutput pre, closed := true } := by
  induction pre with
  | nil => rfl
  | cons c cs ih => simp [runSession, relayOutput, ih]

/-- Claim C3 (amended): for `/api/chat`, when `images` has length N > 0
the composed user content is the annotated text followed by exactly N
lines `Image \x7bi\x7d: \x7bname\x7d (\x7btype\x7d)`, i running 1..N in
input order.  Only this endpoint appends per-image lines: the streaming
endpoint appends just the attachment-count annotation
(`stream_user_content_has_no_image_lines`), and the multimodal endpoint
emits structured content parts instead. -/
theorem chat_user_content_appends_image_lines (message : Option String)
    (images : List ImageDescriptor) (h : images ≠ []) :
    chatUserMessage message images =
      chatImagesBase message images.length ++
        strConcat (images.enum.map (fun p => "\n" ++ imageLine (p.1 + 1) p.2)) := by
  have hl : 0 < images.length := List.length_pos.mpr h
  simp [chatUserMessage, hl, appendImageLines,
    foldl_append_str (fun p : Nat × ImageDescriptor => "\n" ++ imageLine (p.1 + 1) p.2)]

/-- Witness for C3's theorem at a two-image request. -/
theorem chat_user_content_appends_image_lines_witness :
    chatUserMessage (some "hi")
        [⟨"a.png", "image/png", "xx"⟩, ⟨"b.jpg", "image/jpeg", "yy"⟩] =
      chatImagesBase (some "hi") 2 ++
        strConcat
          (([⟨"a.png", "image/png", "xx"⟩, ⟨"b.jpg", "image/jpeg", "yy"⟩] :
              List ImageDescriptor).enum.map
            (fun p => "\n" ++ imageLine (p.1 + 1) p.2)) :=
  chat_user_content_appends_image_lines (some "hi") _ (by decide)

/-- Counterexample to C3 as stated: `/api/chat/stream` also accepts
images, but for a one-image request its composed user content is only the
attachment-count annotation — it contains no `Image 1: ...` line at all,
where the claim requires exactly one. -/
theorem stream_user_content_has_no_image_lines :
    streamUserMessage none [⟨"a.png", "image/png", "xx"⟩] = "[User attached 1 image(s)]" ∧
    (jsSplitNl (streamUserMessage none [⟨"a.png", "image/png", "xx"⟩])).filter
      (fun l => l == imageLine 1 ⟨"a.png", "image/png", "xx"⟩) = [] := by
  decide

/-- Claim C4: for a valid request with non-empty message and empty images,
the upstream message list is exactly the fixed system turn, the history
turns unchanged and in order, and a final user turn equal to the input
message; no turn is split, merged, dropped or reordered. -/
theorem chat_composes_exact_message_list (cfg : ServerConfig) (m : String)
    (hm : m ≠ "") (hist : List Turn) :
    chatHandler cfg ⟨some m, some [], some hist⟩ =
      Except.ok
        { model := cfg.modelName
          messages := (Turn.mk "system" SYSTEM_PROMPT :: hist) ++ [Turn.mk "user" m]
          stream := false } := by
  have hmap : hist.map (fun msg => Turn.mk msg.role msg.content) = hist := by
    induction hist with
    | nil => rfl
    | cons t ts ih => simp [ih]
  simp [chatHandler, rejectRequest, strTruthy, hm, hmap, chatUserMessage, jsOrStr]

/-- Witness for C4's theorem at a concrete request. -/
theorem chat_composes_exact_message_list_witness :
    chatHandler defaultConfig
        ⟨some "hello", some [], some [⟨"user", "hi"⟩, ⟨"assistant", "yo"⟩]⟩ =
      Except.ok
        { model := defaultConfig.modelName
          messages := (Turn.mk "system" SYSTEM_PROMPT ::
              [Turn.mk "user" "hi", Turn.mk "assistant" "yo"]) ++ [Turn.mk "user" "hello"]
          stream := false } :=
  chat_composes_exact_message_list defaultConfig "hello" (by decide)
    [⟨"user", "hi"⟩, ⟨"assistant", "yo"⟩]

/-- Claim C5: `POST /api/chat` with message and images both absent is
rejected with HTTP 400 and the field-presence error message; the handler
returns before the upstream request body is ever built
(`Except.error` models replying without calling upstream). -/
theorem chat_empty_body_rejected_400 (cfg : ServerConfig) :
    chatHandler cfg ⟨none, none, none⟩ =
      Except.error { status := 400, error := "Message or images are required" } := rfl

/-- Claim C6 (amended): when the upstream connection is refused,
`/api/chat` and `/api/chat/multimodal` respond 503 with an actionable
message, but the streaming endpoint's setup catch responds 500
`Stream setup failed` for every setup failure, connection refusal
included; no handler retries the call. -/
theorem conn_refused_status_mapping :
    chatCatch UpstreamFailure.connRefused =
        { status := 503, error := "Ollama is not running. Please start Ollama first." } ∧
    multimodalCatch UpstreamFailure.connRefused =
        { status := 503, error := "Ollama is not running" } ∧
    streamCatch UpstreamFailure.connRefused =
        { status := 500, error := "Stream setup failed" } :=
  ⟨rfl, rfl, rfl⟩

/-- Counterexample to C6 as stated: for the streaming endpoint a refused
upstream connection before streaming begins is answered with status 500,
not the claimed 503. -/
theorem stream_conn_refused_returns_500 :
    (streamCatch UpstreamFailure.connRefused).status = 500 ∧
    ¬ (streamCatch UpstreamFailure.connRefused).status = 503 := by decide

/-- Claim C8: a successful `/api/switch-model` call changes no server
state — the configuration (hence the model reported by `/api/health` and
used by later `/api/chat` calls) is returned unchanged — and a model name
absent from upstream's list yields the 404 reply. -/
theorem switch_model_stateless_and_404 (cfg : ServerConfig) (models : List String)
    (model : String) (hm : model ≠ "") (b : ChatBody) :
    (models.any (fun m => m == model) = true →
      (switchModel cfg models (some model)).1 =
        SwitchResult.ok true ("Model switched to " ++ model) model
          (modelSupportsImages model)) ∧
    (models.any (fun m => m == model) = false →
      (switchModel cfg models (some model)).1 =
        SwitchResult.notFound ("Model \x27" ++ model ++ "\x27 not found")) ∧
    (switchModel cfg models (some model)).2 = cfg ∧
    health (switchModel cfg models (some model)).2 = health cfg ∧
    chatHandler (switchModel cfg models (some model)).2 b = chatHandler cfg b := by
  have h2 : (switchModel cfg models (some model)).2 = cfg := by
    simp only [switchModel, if_neg hm]
    split <;> rfl
  refine ⟨fun hin => ?_, fun hout => ?_, h2, by rw [h2], by rw [h2]⟩
  · simp [switchModel, hm, hin]
  · simp [switchModel, hm, hout]

/-- Witness for C8's theorem: switching to a listed model succeeds and
leaves the configuration intact, and an unlisted model would get 404. -/
theorem switch_model_stateless_and_404_witness :
    (((["llava:7b"] : List String).any (fun m => m == "llava:7b") = true →
      (switchModel defaultConfig ["llava:7b"] (some "llava:7b")).1 =
        SwitchResult.ok true ("Model switched to " ++ "llava:7b") "llava:7b"
          (modelSupportsImages "llava:7b")) ∧
    ((["llava:7b"] : List String).any (fun m => m == "llava:7b") = false →
      (switchModel defaultConfig ["llava:7b"] (some "llava:7b")).1 =
        SwitchResult.notFound ("Model \x27" ++ "llava:7b" ++ "\x27 not found")) ∧
    (switchModel defaultConfig ["llava:7b"] (some "llava:7b")).2 = defaultConfig ∧
    health (switchModel defaultConfig ["llava:7b"] (some "llava:7b")).2 =
      health defaultConfig ∧
    chatHandler (switchModel defaultConfig ["llava:7b"] (some "llava:7b")).2
        ⟨some "hi", none, none⟩ =
      chatHandler defaultConfig ⟨some "hi", none, none⟩) :=
  switch_model_stateless_and_404 defaultConfig ["llava:7b"] "llava:7b" (by decide)
    ⟨some "hi", none, none⟩

/-- Claim C9: the `/api/chat/multimodal` upstream request body is
independent of the images' base64 payloads — two requests that agree on
everything except each image's `data` field produce identical upstream
bodies, each image contributing only the fixed
`data:\x7btype\x7d;base64,[image_data_here]` placeholder. -/
theorem multimodal_ignores_image_bytes (cfg : ServerConfig) (msg : Option String)
    (hist : Option (List Turn)) (mo : Option String)
    (imgs1 imgs2 : List ImageDescriptor)
    (h : imgs1.map (fun i => (i.name, i.type)) = imgs2.map (fun i => (i.name, i.type))) :
    multimodalHandler cfg ⟨msg, some imgs1, hist, mo⟩ =
      multimodalHandler cfg ⟨msg, some imgs2, hist, mo⟩ := by
  have hlen : imgs1.length = imgs2.length := by
    have := congrArg List.length h
    simpa using this
  have himg :
      imgs1.map (fun img =>
          ContentPart.image ("data:" ++ img.type ++ ";base64,[image_data_here]")) =
        imgs2.map (fun img =>
          ContentPart.image ("data:" ++ img.type ++ ";base64,[image_data_here]")) := by
    have h2 := congrArg
      (List.map (fun p : String × String =>
        ContentPart.image ("data:" ++ p.2 ++ ";base64,[image_data_here]"))) h
    simpa [List.map_map, Function.comp] using h2
  have hrej : rejectRequest msg imgs1 = rejectRequest msg imgs2 := by
    simp [rejectRequest, hlen]
  simp only [multimodalHandler, multimodalContent, Option.getD_some]
  rw [hlen, himg, hrej]

/-- Witness for C9's theorem: two one-image requests whose payloads differ
produce the same upstream body. -/
theorem multimodal_ignores_image_bytes_witness :
    multimodalHandler defaultConfig
        ⟨some "hi", some [⟨"a.png", "image/png", "SECRET-ONE"⟩], none, none⟩ =
      multimodalHandler defaultConfig
        ⟨some "hi", some [⟨"a.png", "image/png", "SECRET-TWO"⟩], none, none⟩ :=
  multimodal_ignores_image_bytes defaultConfig (some "hi") none none _ _ (by decide)

/-- Claim C10: all three chat endpoints test the message's truthiness, so
an empty-string message with no images is rejected with the same 400 as an
absent one, and `/api/chat` treats `message: ""` exactly like an absent
message. -/
theorem empty_message_treated_as_absent (cfg : ServerConfig)
    (hist : Option (List Turn)) (mo : Option String) :
    chatHandler cfg ⟨some "", none, hist⟩ =
        Except.error { status := 400, error := "Message or images are required" } ∧
    streamSetup cfg ⟨some "", none, hist⟩ =
        Except.error { status := 400, error := "Message or images are required" } ∧
    multimodalHandler cfg ⟨some "", none, hist, mo⟩ =
        Except.error { status := 400, error := "Message or images are required" } ∧
    chatHandler cfg ⟨some "", none, hist⟩ = chatHandler cfg ⟨none, none, hist⟩ :=
  ⟨rfl, rfl, rfl, rfl⟩
